import Mathlib

/-!
# Verification of the atom-folding capability-override registry

Shallow embedding of `src/main.ts` (the `EditorData` and `FoldConsumer`
classes).  JavaScript function references are modelled syntactically by the
inductive type `Method`: structural equality of `Method` values corresponds to
reference equality of the function objects in the source (each host method gets
a distinct `host` id; each installed closure records the provider identity and
its captured fallback).  Dynamic JavaScript values returned by fold methods are
modelled by `JSVal`, with the source's truthiness test as `truthy`.
-/

/-- A dynamically typed JavaScript value, as passed to and returned from the
fold methods.  `undef` is `undefined`, `nullv` is `null`; ranges and range
arrays are kept abstract (endpoints as naturals). -/
inductive JSVal where
  | undef
  | nullv
  | boolv (b : Bool)
  | numv (n : Nat)
  | strv (s : String)
  | rangev (lo hi : Nat)
  | rangesv (xs : List (Nat × Nat))
deriving DecidableEq, Repr

/-- JavaScript truthiness: `undefined`, `null`, `false`, `0` and `""` are
falsy; every object (ranges, arrays, even empty ones) is truthy. -/
def truthy : JSVal → Bool
  | .undef => false
  | .nullv => false
  | .boolv b => b
  | .numv n => n != 0
  | .strv s => s != ""
  | .rangev _ _ => true
  | .rangesv _ => true

/-- A live method slot on an editor's `languageMode`, modelled syntactically.
`host i` is an original host function reference (identity `i`).  The other
constructors are the closures installed by `applyCustomFoldsProvider`: one per
method and per branch of `allowDefaultFolds`, with the `FB` variants recording
the method reference captured for fallback at apply time. -/
inductive Method where
  | host (id : Nat)
  | provRow (pid : Nat)
  | provRowFB (pid : Nat) (orig : Method)
  | provPoint (pid : Nat)
  | provPointFB (pid : Nat) (orig : Method)
  | provIndent (pid : Nat)
  | provIndentFB (pid : Nat) (orig : Method)
deriving DecidableEq, Repr

/-- The three fold-method slots of a `languageMode`
(interface `LanguageModeFoldMethods` in the source). -/
structure LanguageModeFoldMethods where
  isFoldableAtRow : Method
  getFoldableRangeContainingPoint : Method
  getFoldableRangesAtIndentLevel : Method
deriving DecidableEq, Repr

/-- A provider object as seen by the registry: its identity (`pid`), its
`allowDefaultFolds` flag, and whether it has a `destroy` method.  The
behaviour of its three operations lives in a separate semantic environment
(`ProviderSem`), keyed by `pid`. -/
structure FoldProvider where
  pid : Nat
  allowDefaultFolds : Bool
  hasDestroy : Bool
deriving DecidableEq, Repr

/-- Dynamic behaviour of one provider's three operations.  Each function
receives the positional arguments the installed closure was called with; the
repackaging into the params object (which also carries the constant `editor`
reference) is absorbed into the function. -/
structure ProviderSem where
  isFoldableAtRow : List JSVal → JSVal
  getFoldableRangeContainingPoint : List JSVal → JSVal
  getFoldableRangesAtIndentLevel : List JSVal → JSVal

/-- Evaluate a method reference on positional arguments, given the behaviour
of the host originals (`hs`, by host id) and of the providers (`ps`, by
provider id).  The `FB` closures mirror the source exactly:
`isFoldableAtRow` uses `provider(...) || orig(...)` (falsy triggers fallback),
while the two range methods fall back only on a result `=== undefined`. -/
def Method.eval (hs : Nat → List JSVal → JSVal) (ps : Nat → ProviderSem) :
    Method → List JSVal → JSVal
  | .host i, args => hs i args
  | .provRow p, args => (ps p).isFoldableAtRow args
  | .provRowFB p orig, args =>
      let r := (ps p).isFoldableAtRow args
      if truthy r then r else orig.eval hs ps args
  | .provPoint p, args => (ps p).getFoldableRangeContainingPoint args
  | .provPointFB p orig, args =>
      let r := (ps p).getFoldableRangeContainingPoint args
      if r ≠ JSVal.undef then r else orig.eval hs ps args
  | .provIndent p, args => (ps p).getFoldableRangesAtIndentLevel args
  | .provIndentFB p orig, args =>
      let r := (ps p).getFoldableRangesAtIndentLevel args
      if r ≠ JSVal.undef then r else orig.eval hs ps args

/-- Per-editor state: the `EditorData` record of the source together with the
three live method slots of its editor's `languageMode` (which `EditorData`
mutates through the editor reference).  `subscriptionsDisposed` models the
effect of `subscriptions.dispose()` in `destroy()`. -/
structure EditorData where
  live : LanguageModeFoldMethods
  usingCustomFolds : Bool
  originalFoldMethods : Option LanguageModeFoldMethods
  subscriptionsDisposed : Bool
deriving DecidableEq, Repr

/-- `EditorData.updateOriginalFoldMethods` (the spec's `captureOriginal`).
If a snapshot exists while custom folds are in place, the source logs
"Unexpected: Custom rules should not be in place; aborting" and returns
without mutating.  Otherwise it stores the snapshot and clears the flag.
The snapshot literal copies the source verbatim: all three fields are
assigned `languageMode.isFoldableAtRow`. -/
def EditorData.updateOriginalFoldMethods (d : EditorData) : EditorData :=
  if d.originalFoldMethods.isSome ∧ d.usingCustomFolds then
    d
  else
    { d with
      originalFoldMethods := some
        { isFoldableAtRow := d.live.isFoldableAtRow
          getFoldableRangeContainingPoint := d.live.isFoldableAtRow
          getFoldableRangesAtIndentLevel := d.live.isFoldableAtRow }
      usingCustomFolds := false }

/-- The `EditorData` constructor: records the editor, starts with
`usingCustomFolds = false`, fresh subscriptions, and immediately calls
`updateOriginalFoldMethods()`.  `lm` is the editor's `languageMode` method
set at construction time. -/
def EditorData.create (lm : LanguageModeFoldMethods) : EditorData :=
  EditorData.updateOriginalFoldMethods
    { live := lm
      usingCustomFolds := false
      originalFoldMethods := none
      subscriptionsDisposed := false }

/-- `EditorData.restoreOriginalFolds` (the spec's `restoreOriginal`): no-op
unless custom folds are in place and a snapshot exists; otherwise writes the
snapshot's three methods back onto the `languageMode` and clears the flag.
The snapshot itself is left in place. -/
def EditorData.restoreOriginalFolds (d : EditorData) : EditorData :=
  if ¬d.usingCustomFolds ∨ d.originalFoldMethods = none then d
  else
    match d.originalFoldMethods with
    | none => d
    | some o => { d with live := o, usingCustomFolds := false }

/-- `EditorData.applyCustomFoldsProvider` (the spec's `applyOverride`): when
custom folds are not in place, first calls `updateOriginalFoldMethods()`;
then installs the three replacement closures.  With `allowDefaultFolds` the
closures capture the method references that are live at apply time as their
fallbacks; without it they call only the provider. -/
def EditorData.applyCustomFoldsProvider (d : EditorData) (p : FoldProvider) :
    EditorData :=
  let d := if ¬d.usingCustomFolds then d.updateOriginalFoldMethods else d
  let lm := d.live
  let live' : LanguageModeFoldMethods :=
    if p.allowDefaultFolds then
      { isFoldableAtRow := .provRowFB p.pid lm.isFoldableAtRow
        getFoldableRangeContainingPoint :=
          .provPointFB p.pid lm.getFoldableRangeContainingPoint
        getFoldableRangesAtIndentLevel :=
          .provIndentFB p.pid lm.getFoldableRangesAtIndentLevel }
    else
      { isFoldableAtRow := .provRow p.pid
        getFoldableRangeContainingPoint := .provPoint p.pid
        getFoldableRangesAtIndentLevel := .provIndent p.pid }
  { d with live := live', usingCustomFolds := true }

/-- `EditorData.destroy`: disposes the subscriptions only; the live methods
and the override flag are untouched. -/
def EditorData.destroy (d : EditorData) : EditorData :=
  { d with subscriptionsDisposed := true }

/-- `EditorData.deactivate`: `restoreOriginalFolds()` then `destroy()`. -/
def EditorData.deactivate (d : EditorData) : EditorData :=
  d.restoreOriginalFolds.destroy

/-- An editor tracked by the registry: its identity, its current grammar's
`scopeName`, and its `EditorData`. -/
structure ObservedEditor where
  eid : Nat
  scopeName : String
  data : EditorData
deriving DecidableEq, Repr

/-- The `FoldConsumer` singleton's state: the scope-to-provider `Map` and the
editor-to-`EditorData` `Map`, both as association lists in insertion order
(JavaScript `Map` iterates in insertion order, one entry per key). -/
structure FoldConsumer where
  providers : List (String × FoldProvider)
  observedEditors : List ObservedEditor
deriving DecidableEq, Repr

/-- `Map.get` on the provider map. -/
def lookupProvider (ps : List (String × FoldProvider)) (k : String) :
    Option FoldProvider :=
  (ps.find? (fun e => e.1 == k)).map (fun e => e.2)

/-- The `observeGrammar` handler in `FoldConsumer.activate` — the spec's
`onObjectClassified`.  Updates the editor's recorded scope, then: no provider
for the scope means `updateOriginalFoldMethods()`, otherwise
`applyCustomFoldsProvider(provider)`. -/
def FoldConsumer.onGrammarChanged (c : FoldConsumer) (eid : Nat)
    (scopeName : String) : FoldConsumer :=
  { c with
    observedEditors := c.observedEditors.map fun e =>
      if e.eid == eid then
        match lookupProvider c.providers scopeName with
        | none =>
            { e with scopeName := scopeName
                     data := e.data.updateOriginalFoldMethods }
        | some p =>
            { e with scopeName := scopeName
                     data := e.data.applyCustomFoldsProvider p }
      else e }

/-- The `atom.textEditors.observe` handler: `createEditorData(editor)` (skips
an editor already in the map, logging an error), then the initial
`observeGrammar` firing with the editor's current grammar — the spec's
object-creation notification.  `lm` is the new editor's `languageMode`
method set. -/
def FoldConsumer.onEditorAdded (c : FoldConsumer) (eid : Nat)
    (scopeName : String) (lm : LanguageModeFoldMethods) : FoldConsumer :=
  if (c.observedEditors.find? (fun e => e.eid == eid)).isSome then c
  else
    let c' := { c with
      observedEditors :=
        c.observedEditors ++
          [ObservedEditor.mk eid scopeName (EditorData.create lm)] }
    c'.onGrammarChanged eid scopeName

/-- The `onDidDestroy` handler in `FoldConsumer.activate` — the spec's
`onObjectDestroyed`: `editorData.destroy()` then removal from the map.
Returns the new registry state together with the destroyed editor's final
`EditorData` (the host-side editor object outlives the map entry). -/
def FoldConsumer.onEditorDestroyed (c : FoldConsumer) (eid : Nat) :
    FoldConsumer × Option EditorData :=
  match c.observedEditors.find? (fun e => e.eid == eid) with
  | none => (c, none)
  | some e =>
      ({ c with
         observedEditors := c.observedEditors.filter (fun x => x.eid != eid) },
       some e.data.destroy)

/-- One iteration of the `scopes.forEach` body in `consumeFoldProvider`:
skip a non-string entry; skip a scope that already has a provider
(first-registration-wins); otherwise store the mapping and apply the
provider to every open editor whose current grammar matches the scope.
`atom.workspace.getTextEditors()` is taken to return exactly the observed
editors (every editor the registry has seen and not yet destroyed). -/
def FoldConsumer.registerOneScope (c : FoldConsumer) (p : FoldProvider)
    (scope : String) : FoldConsumer :=
  if (lookupProvider c.providers scope).isSome then c
  else
    { providers := c.providers ++ [(scope, p)]
      observedEditors := c.observedEditors.map fun e =>
        if e.scopeName == scope then
          { e with data := e.data.applyCustomFoldsProvider p }
        else e }

/-- One dynamic entry of a scope array: the per-entry check in the source
only distinguishes strings (`typeof scope !== "string"` skips the rest). -/
inductive ScopeEntry where
  | strE (s : String)
  | nonString
deriving DecidableEq, Repr

/-- The dynamic `payload.scope` field of a registration payload.
`strv`/`arrv` are the accepted shapes; `falsyv` stands for any falsy
non-string value (`undefined`, `null`, `false`, `0`); `otherv` for a truthy
value that is neither a string nor an `Array` (object, nonzero number, ...).
Array entries are themselves dynamic: only string entries count. -/
inductive ScopeField where
  | falsyv
  | strv (s : String)
  | arrv (xs : List ScopeEntry)
  | otherv
deriving DecidableEq, Repr

/-- Truthiness of the `scope` field (`!payload.scope` in the source):
a string is truthy iff nonempty; arrays and other objects are truthy. -/
def ScopeField.truthyScope : ScopeField → Bool
  | .falsyv => false
  | .strv s => s != ""
  | .arrv _ => true
  | .otherv => true

/-- A registration payload handed to `consumeFoldProvider`.  The three
`has...` flags record whether `typeof payload.<op> === "function"`; `scope`
is the dynamic scope field; `provider` is the identity and attributes of the
payload object once accepted as a `FoldProvider`. -/
structure Payload where
  hasIsFoldableAtRow : Bool
  hasGetFoldableRangeContainingPoint : Bool
  hasGetFoldableRangesAtIndentLevel : Bool
  scope : ScopeField
  provider : FoldProvider
deriving DecidableEq, Repr

/-- `FoldConsumer.consumeFoldProvider` — the spec's `register`: rejects a
payload missing one of the three operations or with a falsy scope; normalizes
a string scope to a one-element array; rejects a scope that is not an array
after normalization; then runs the per-scope registration in order. -/
def FoldConsumer.consumeFoldProvider (c : FoldConsumer) (pl : Payload) :
    FoldConsumer :=
  if ¬(pl.hasIsFoldableAtRow ∧ pl.hasGetFoldableRangeContainingPoint ∧
       pl.hasGetFoldableRangesAtIndentLevel ∧ pl.scope.truthyScope) then c
  else
    match pl.scope with
    | .strv s => c.registerOneScope pl.provider s
    | .arrv xs =>
        xs.foldl
          (fun acc sv =>
            match sv with
            | ScopeEntry.strE s => acc.registerOneScope pl.provider s
            | ScopeEntry.nonString => acc)
          c
    | _ => c

/-- `FoldConsumer.deactivate` — the spec's `teardownAll`: disposes the
registry subscriptions, calls `deactivate()` on every tracked `EditorData`,
clears the editor map (the per-editor restore effects vanish with the
entries), then calls `destroy()` on every provider map entry whose provider
has one.  Returns the new state and the trace of provider ids on which
`destroy()` was invoked, in iteration order; the provider map is not
cleared by the source. -/
def FoldConsumer.deactivate (c : FoldConsumer) : FoldConsumer × List Nat :=
  let trace := c.providers.foldl
    (fun acc e => if e.2.hasDestroy then acc ++ [e.2.pid] else acc) []
  ({ providers := c.providers, observedEditors := [] }, trace)

/-- Number of `destroy()` invocations a given provider identity receives in
an invocation trace. -/
def destroyCount (trace : List Nat) (pid : Nat) : Nat :=
  (trace.filter (fun x => x == pid)).length

/-! ## Concrete fixtures -/

/-- A `languageMode` whose three original methods are pairwise distinct
function references. -/
def lmABC : LanguageModeFoldMethods :=
  { isFoldableAtRow := Method.host 0
    getFoldableRangeContainingPoint := Method.host 1
    getFoldableRangesAtIndentLevel := Method.host 2 }

/-- A provider with `allowDefaultFolds` and a `destroy` method. -/
def provTen : FoldProvider :=
  { pid := 10, allowDefaultFolds := true, hasDestroy := true }

/-- A provider without `allowDefaultFolds` and without `destroy`. -/
def provEleven : FoldProvider :=
  { pid := 11, allowDefaultFolds := false, hasDestroy := false }

/-- Host behaviour used in concrete evaluations: every original method
returns `true`. -/
def hsW : Nat → List JSVal → JSVal := fun _ _ => JSVal.boolv true

/-- Provider behaviour used in concrete evaluations: `isFoldableAtRow`
returns `false` (falsy), `getFoldableRangeContainingPoint` returns `null`
(falsy but not `undefined`), `getFoldableRangesAtIndentLevel` returns
`undefined`. -/
def psW : Nat → ProviderSem := fun _ =>
  { isFoldableAtRow := fun _ => JSVal.boolv false
    getFoldableRangeContainingPoint := fun _ => JSVal.nullv
    getFoldableRangesAtIndentLevel := fun _ => JSVal.undef }

/-- Scenario: an editor (id 1) opens with an unprovided grammar, a provider
is registered for scope `"k"`, the editor's grammar changes to `"k"` (the
override is applied), then changes to `"m"`, a scope with no provider. -/
def c2Scenario : FoldConsumer :=
  ((((FoldConsumer.mk [] []).onEditorAdded 1 "text"
      lmABC).consumeFoldProvider
      (Payload.mk true true true (ScopeField.strv "k")
        provTen)).onGrammarChanged 1 "k").onGrammarChanged 1 "m"

/-- Scenario: a provider is registered for scope `"k"`, then an editor
(id 1) opens with grammar `"k"` and is immediately overridden. -/
def c3Scenario : FoldConsumer :=
  ((FoldConsumer.mk [] []).consumeFoldProvider
    (Payload.mk true true true (ScopeField.strv "k")
      provTen)).onEditorAdded 1 "k" lmABC

/-- Scenario: one provider instance registered under the two scopes `"k1"`
and `"k2"` in a single registration. -/
def c4Scenario : FoldConsumer :=
  (FoldConsumer.mk [] []).consumeFoldProvider
    (Payload.mk true true true
      (ScopeField.arrv [ScopeEntry.strE "k1", ScopeEntry.strE "k2"])
      provTen)

/-- Scenario: provider `provTen` registered first under scope `"k"` on an
empty registry. -/
def c7Scenario : FoldConsumer :=
  (FoldConsumer.mk [] []).consumeFoldProvider
    (Payload.mk true true true (ScopeField.strv "k") provTen)

/-! ## Helper lemmas -/

/-- `updateOriginalFoldMethods` never touches the live method slots
(it either aborts or only writes the snapshot and the flag). -/
theorem updateOriginal_live (d : EditorData) :
    d.updateOriginalFoldMethods.live = d.live := by
  unfold EditorData.updateOriginalFoldMethods
  split <;> rfl

/-- `updateOriginalFoldMethods` never removes an existing snapshot. -/
theorem updateOriginal_isSome (d : EditorData)
    (h : d.originalFoldMethods.isSome = true) :
    d.updateOriginalFoldMethods.originalFoldMethods.isSome = true := by
  unfold EditorData.updateOriginalFoldMethods
  split
  · exact h
  · rfl

/-- With custom folds in place, `applyCustomFoldsProvider` skips the
re-capture and installs closures over the currently live methods. -/
theorem apply_overridden (d : EditorData) (p : FoldProvider)
    (h : d.usingCustomFolds = true) :
    d.applyCustomFoldsProvider p =
      { d with
        usingCustomFolds := true
        live :=
          if p.allowDefaultFolds then
            { isFoldableAtRow := .provRowFB p.pid d.live.isFoldableAtRow
              getFoldableRangeContainingPoint :=
                .provPointFB p.pid d.live.getFoldableRangeContainingPoint
              getFoldableRangesAtIndentLevel :=
                .provIndentFB p.pid d.live.getFoldableRangesAtIndentLevel }
          else
            { isFoldableAtRow := .provRow p.pid
              getFoldableRangeContainingPoint := .provPoint p.pid
              getFoldableRangesAtIndentLevel := .provIndent p.pid } } := by
  unfold EditorData.applyCustomFoldsProvider
  simp [h]

/-- Without custom folds in place, `applyCustomFoldsProvider` first
re-captures, leaving the live methods unchanged, then installs closures
over them. -/
theorem apply_not_overridden (d : EditorData) (p : FoldProvider)
    (h : d.usingCustomFolds = false) :
    d.applyCustomFoldsProvider p =
      { d.updateOriginalFoldMethods with
        usingCustomFolds := true
        live :=
          if p.allowDefaultFolds then
            { isFoldableAtRow := .provRowFB p.pid d.live.isFoldableAtRow
              getFoldableRangeContainingPoint :=
                .provPointFB p.pid d.live.getFoldableRangeContainingPoint
              getFoldableRangesAtIndentLevel :=
                .provIndentFB p.pid d.live.getFoldableRangesAtIndentLevel }
          else
            { isFoldableAtRow := .provRow p.pid
              getFoldableRangeContainingPoint := .provPoint p.pid
              getFoldableRangesAtIndentLevel := .provIndent p.pid } } := by
  unfold EditorData.applyCustomFoldsProvider
  simp [h, updateOriginal_live]

/-! ## Claim theorems -/

/-- C1: the claim states that for a never-overridden object, apply followed
by restore leaves all three live fold methods reference-equal to the
originals.  The code falsifies it: `updateOriginalFoldMethods` assigns
`languageMode.isFoldableAtRow` to all three snapshot fields, so the restore
writes the `isFoldableAtRow` reference into the two range-method slots.  At
an editor whose originals are the distinct references `host 0/1/2`, the
round trip yields `host 0` in every slot: `isFoldableAtRow` is restored
reference-identically, but `getFoldableRangeContainingPoint` comes back as
the original `isFoldableAtRow`, not its own original. -/
theorem c1_roundtrip_breaks_range_methods :
    (((EditorData.create lmABC).applyCustomFoldsProvider
        provTen).restoreOriginalFolds).live =
      { isFoldableAtRow := Method.host 0
        getFoldableRangeContainingPoint := Method.host 0
        getFoldableRangesAtIndentLevel := Method.host 0 } ∧
    (((EditorData.create lmABC).applyCustomFoldsProvider
        provTen).restoreOriginalFolds).live.isFoldableAtRow =
      lmABC.isFoldableAtRow ∧
    (((EditorData.create lmABC).applyCustomFoldsProvider
        provTen).restoreOriginalFolds).live.getFoldableRangeContainingPoint ≠
      lmABC.getFoldableRangeContainingPoint ∧
    (((EditorData.create lmABC).applyCustomFoldsProvider
        provTen).restoreOriginalFolds).live.getFoldableRangesAtIndentLevel ≠
      lmABC.getFoldableRangesAtIndentLevel := by
  decide

/-- C5 counterexample: the claim says the snapshot is captured lazily, only
on first need, not before an override is ever requested, and is cleared on
full restoration.  On the code, a freshly constructed `EditorData` (no
override ever requested) already holds a snapshot, and a full restoration
leaves the snapshot in place. -/
theorem c5_snapshot_not_lazy_not_cleared :
    (EditorData.create lmABC).originalFoldMethods ≠ none ∧
    (((EditorData.create lmABC).applyCustomFoldsProvider
        provTen).restoreOriginalFolds).originalFoldMethods ≠ none := by
  decide

/-- C5 amended: each managed object has a single optional snapshot field (so
at most one snapshot at any time); the snapshot is captured eagerly by the
constructor, restoration leaves it untouched, and once captured it is never
cleared by capture, apply or teardown. -/
theorem c5_snapshot_eager_and_persistent (lm : LanguageModeFoldMethods)
    (d : EditorData) (p : FoldProvider) :
    (EditorData.create lm).originalFoldMethods.isSome = true ∧
    d.restoreOriginalFolds.originalFoldMethods = d.originalFoldMethods ∧
    (d.originalFoldMethods.isSome = true →
      d.updateOriginalFoldMethods.originalFoldMethods.isSome = true ∧
      (d.applyCustomFoldsProvider p).originalFoldMethods.isSome = true ∧
      d.destroy.originalFoldMethods = d.originalFoldMethods) := by
  refine ⟨?_, ?_, fun h => ⟨updateOriginal_isSome d h, ?_, rfl⟩⟩
  · unfold EditorData.create EditorData.updateOriginalFoldMethods
    simp
  · unfold EditorData.restoreOriginalFolds
    split
    · rfl
    · split <;> rfl
  · unfold EditorData.applyCustomFoldsProvider
    rcases hu : d.usingCustomFolds with _ | _
    · simp [hu, updateOriginal_isSome d h]
    · simp [hu, h]

/-- C5 witness: the amended theorem instantiated at a concrete editor state
with a snapshot present. -/
theorem c5_snapshot_eager_and_persistent_witness :
    (EditorData.create lmABC).originalFoldMethods.isSome = true ∧
    ((EditorData.create lmABC).applyCustomFoldsProvider
        provTen).originalFoldMethods.isSome = true := by
  refine ⟨(c5_snapshot_eager_and_persistent lmABC (EditorData.create lmABC)
    provTen).1, ?_⟩
  exact ((c5_snapshot_eager_and_persistent lmABC (EditorData.create lmABC)
    provTen).2.2 (by decide)).2.1

/-- C9: `restoreOriginalFolds` is idempotent — a second call in a row changes
nothing (after the first call custom folds are no longer in place, so the
second is a no-op) — and it is a no-op when custom folds are not in place or
no snapshot exists. -/
theorem c9_restore_idempotent (d : EditorData) :
    d.restoreOriginalFolds.restoreOriginalFolds = d.restoreOriginalFolds ∧
    (d.usingCustomFolds = false → d.restoreOriginalFolds = d) ∧
    (d.originalFoldMethods = none → d.restoreOriginalFolds = d) := by
  have noop : ∀ d' : EditorData, d'.usingCustomFolds = false →
      d'.restoreOriginalFolds = d' := by
    intro d' h
    unfold EditorData.restoreOriginalFolds
    simp [h]
  have noSnap : ∀ d' : EditorData, d'.originalFoldMethods = none →
      d'.restoreOriginalFolds = d' := by
    intro d' h
    unfold EditorData.restoreOriginalFolds
    simp [h]
  refine ⟨?_, noop d, noSnap d⟩
  rcases hu : d.usingCustomFolds with _ | _
  · rw [noop d hu]
    exact noop d hu
  · rcases ho : d.originalFoldMethods with _ | o
    · rw [noSnap d ho]
      exact noSnap d ho
    · have h1 : d.restoreOriginalFolds =
          { d with live := o, usingCustomFolds := false } := by
        unfold EditorData.restoreOriginalFolds
        simp [hu, ho]
      rw [h1, noop _ rfl]

/-- C9 witness: the theorem instantiated at a concrete non-overridden,
snapshot-free editor state, with both no-op hypotheses discharged. -/
theorem c9_restore_idempotent_witness :
    (EditorData.mk lmABC false none false).restoreOriginalFolds.restoreOriginalFolds =
      (EditorData.mk lmABC false none false).restoreOriginalFolds ∧
    (EditorData.mk lmABC false none false).restoreOriginalFolds =
      EditorData.mk lmABC false none false := by
  exact ⟨(c9_restore_idempotent (EditorData.mk lmABC false none false)).1,
    (c9_restore_idempotent (EditorData.mk lmABC false none false)).2.1 rfl⟩

/-- C10: applying a provider to an already-overridden editor skips the
re-capture (the stored snapshot is unchanged), and with `allowDefaultFolds`
the installed closures capture as fallbacks exactly the method references
live at apply time — the previous override's closures, whatever they are,
not the snapshot's contents. -/
theorem c10_reapply_keeps_snapshot_and_chains (d : EditorData)
    (p : FoldProvider) (h : d.usingCustomFolds = true) :
    (d.applyCustomFoldsProvider p).originalFoldMethods =
      d.originalFoldMethods ∧
    (p.allowDefaultFolds = true →
      (d.applyCustomFoldsProvider p).live.isFoldableAtRow =
        Method.provRowFB p.pid d.live.isFoldableAtRow ∧
      (d.applyCustomFoldsProvider p).live.getFoldableRangeContainingPoint =
        Method.provPointFB p.pid d.live.getFoldableRangeContainingPoint ∧
      (d.applyCustomFoldsProvider p).live.getFoldableRangesAtIndentLevel =
        Method.provIndentFB p.pid d.live.getFoldableRangesAtIndentLevel) := by
  rw [apply_overridden d p h]
  refine ⟨rfl, fun hd => ?_⟩
  simp [hd]

/-- C10 witness: a concrete editor overridden by one provider, then given a
second provider with `allowDefaultFolds`: the snapshot survives and the new
fallbacks are the first provider's closures. -/
theorem c10_reapply_keeps_snapshot_and_chains_witness :
    (((EditorData.create lmABC).applyCustomFoldsProvider
        provEleven).applyCustomFoldsProvider provTen).originalFoldMethods =
      ((EditorData.create lmABC).applyCustomFoldsProvider
        provEleven).originalFoldMethods ∧
    (((EditorData.create lmABC).applyCustomFoldsProvider
        provEleven).applyCustomFoldsProvider provTen).live.isFoldableAtRow =
      Method.provRowFB provTen.pid
        ((EditorData.create lmABC).applyCustomFoldsProvider
          provEleven).live.isFoldableAtRow := by
  refine ⟨(c10_reapply_keeps_snapshot_and_chains
    ((EditorData.create lmABC).applyCustomFoldsProvider provEleven)
    provTen (by decide)).1, ?_⟩
  exact ((c10_reapply_keeps_snapshot_and_chains
    ((EditorData.create lmABC).applyCustomFoldsProvider provEleven)
    provTen (by decide)).2 rfl).1

/-- With `allowDefaultFolds`, the apply installs the three fallback closures
over the methods live before the call (the re-capture, when it runs, does not
change the live slots). -/
theorem apply_live_allowDefault (d : EditorData) (p : FoldProvider)
    (h : p.allowDefaultFolds = true) :
    (d.applyCustomFoldsProvider p).live =
      { isFoldableAtRow := .provRowFB p.pid d.live.isFoldableAtRow
        getFoldableRangeContainingPoint :=
          .provPointFB p.pid d.live.getFoldableRangeContainingPoint
        getFoldableRangesAtIndentLevel :=
          .provIndentFB p.pid d.live.getFoldableRangesAtIndentLevel } := by
  rcases hu : d.usingCustomFolds with _ | _
  · rw [apply_not_overridden d p hu]
    simp [h]
  · rw [apply_overridden d p hu]
    simp [h]

/-- Without `allowDefaultFolds`, the apply installs the three plain provider
closures. -/
theorem apply_live_noDefault (d : EditorData) (p : FoldProvider)
    (h : p.allowDefaultFolds = false) :
    (d.applyCustomFoldsProvider p).live =
      { isFoldableAtRow := .provRow p.pid
        getFoldableRangeContainingPoint := .provPoint p.pid
        getFoldableRangesAtIndentLevel := .provIndent p.pid } := by
  rcases hu : d.usingCustomFolds with _ | _
  · rw [apply_not_overridden d p hu]
    simp [h]
  · rw [apply_overridden d p hu]
    simp [h]

/-- C6: with `allowDefaultFolds` true, the installed `isFoldableAtRow`
returns the provider result when truthy and otherwise falls back to the
method captured at apply time; the installed range methods fall back exactly
when the provider result is `undefined` — any other result, even a falsy one
such as `null`, is returned as is.  With `allowDefaultFolds` false, each
installed method returns the provider result unconditionally. -/
theorem c6_fallback_semantics (hs : Nat → List JSVal → JSVal)
    (ps : Nat → ProviderSem) (d : EditorData) (p : FoldProvider)
    (args : List JSVal) :
    (p.allowDefaultFolds = true →
      (truthy ((ps p.pid).isFoldableAtRow args) = false →
        ((d.applyCustomFoldsProvider p).live.isFoldableAtRow).eval hs ps args =
          (d.live.isFoldableAtRow).eval hs ps args) ∧
      (truthy ((ps p.pid).isFoldableAtRow args) = true →
        ((d.applyCustomFoldsProvider p).live.isFoldableAtRow).eval hs ps args =
          (ps p.pid).isFoldableAtRow args) ∧
      ((ps p.pid).getFoldableRangeContainingPoint args = JSVal.undef →
        ((d.applyCustomFoldsProvider
            p).live.getFoldableRangeContainingPoint).eval hs ps args =
          (d.live.getFoldableRangeContainingPoint).eval hs ps args) ∧
      ((ps p.pid).getFoldableRangeContainingPoint args ≠ JSVal.undef →
        ((d.applyCustomFoldsProvider
            p).live.getFoldableRangeContainingPoint).eval hs ps args =
          (ps p.pid).getFoldableRangeContainingPoint args) ∧
      ((ps p.pid).getFoldableRangesAtIndentLevel args = JSVal.undef →
        ((d.applyCustomFoldsProvider
            p).live.getFoldableRangesAtIndentLevel).eval hs ps args =
          (d.live.getFoldableRangesAtIndentLevel).eval hs ps args) ∧
      ((ps p.pid).getFoldableRangesAtIndentLevel args ≠ JSVal.undef →
        ((d.applyCustomFoldsProvider
            p).live.getFoldableRangesAtIndentLevel).eval hs ps args =
          (ps p.pid).getFoldableRangesAtIndentLevel args)) ∧
    (p.allowDefaultFolds = false →
      ((d.applyCustomFoldsProvider p).live.isFoldableAtRow).eval hs ps args =
        (ps p.pid).isFoldableAtRow args ∧
      ((d.applyCustomFoldsProvider
          p).live.getFoldableRangeContainingPoint).eval hs ps args =
        (ps p.pid).getFoldableRangeContainingPoint args ∧
      ((d.applyCustomFoldsProvider
          p).live.getFoldableRangesAtIndentLevel).eval hs ps args =
        (ps p.pid).getFoldableRangesAtIndentLevel args) := by
  constructor
  · intro hd
    rw [apply_live_allowDefault d p hd]
    refine ⟨fun h1 => ?_, fun h1 => ?_, fun h1 => ?_, fun h1 => ?_,
      fun h1 => ?_, fun h1 => ?_⟩ <;>
      simp [Method.eval, h1]
  · intro hd
    rw [apply_live_noDefault d p hd]
    exact ⟨rfl, rfl, rfl⟩

/-- C6 witness: at a concrete editor and provider with `allowDefaultFolds`,
the installed `isFoldableAtRow` falls back to the original (returning
`true`), the installed point method returns the provider's `null` without
falling back, and the installed indent method falls back on the provider's
`undefined`. -/
theorem c6_fallback_semantics_witness :
    (((EditorData.create lmABC).applyCustomFoldsProvider
        provTen).live.isFoldableAtRow).eval hsW psW [JSVal.numv 5] =
      JSVal.boolv true ∧
    (((EditorData.create lmABC).applyCustomFoldsProvider
        provTen).live.getFoldableRangeContainingPoint).eval hsW psW
        [JSVal.numv 5, JSVal.numv 2] = JSVal.nullv ∧
    (((EditorData.create lmABC).applyCustomFoldsProvider
        provTen).live.getFoldableRangesAtIndentLevel).eval hsW psW
        [JSVal.numv 1, JSVal.numv 2] = JSVal.boolv true := by
  refine ⟨?_, ?_, ?_⟩
  · have h := ((c6_fallback_semantics hsW psW (EditorData.create lmABC)
      provTen [JSVal.numv 5]).1 rfl).1 rfl
    rw [h]
    rfl
  · exact ((c6_fallback_semantics hsW psW (EditorData.create lmABC)
      provTen [JSVal.numv 5, JSVal.numv 2]).1 rfl).2.2.2.1 (by decide)
  · have h := ((c6_fallback_semantics hsW psW (EditorData.create lmABC)
      provTen [JSVal.numv 1, JSVal.numv 2]).1 rfl).2.2.2.2.1 rfl
    rw [h]
    rfl

/-- A key bound in the provider map keeps its binding when an entry is
appended (`Map.set` never touches earlier keys). -/
theorem lookupProvider_append (ps : List (String × FoldProvider))
    (e : String × FoldProvider) (k : String) (A : FoldProvider)
    (h : lookupProvider ps k = some A) :
    lookupProvider (ps ++ [e]) k = some A := by
  induction ps with
  | nil => simp [lookupProvider, List.find?] at h
  | cons x xs ih =>
      unfold lookupProvider at h ⊢
      rw [List.cons_append, List.find?]
      rw [List.find?] at h
      rcases hx : (x.1 == k) with _ | _
      · rw [hx] at h
        exact ih h
      · rw [hx] at h
        exact h

/-- `registerOneScope` never rebinds an already-claimed key. -/
theorem lookup_registerOneScope (c : FoldConsumer) (p : FoldProvider)
    (s k : String) (A : FoldProvider)
    (h : lookupProvider c.providers k = some A) :
    lookupProvider (c.registerOneScope p s).providers k = some A := by
  unfold FoldConsumer.registerOneScope
  split
  · exact h
  · exact lookupProvider_append c.providers (s, p) k A h

/-- The per-scope registration loop never rebinds an already-claimed key. -/
theorem lookup_scopeLoop (xs : List ScopeEntry) (p : FoldProvider)
    (k : String) (A : FoldProvider) :
    ∀ c : FoldConsumer, lookupProvider c.providers k = some A →
      lookupProvider
        ((xs.foldl
          (fun acc sv =>
            match sv with
            | ScopeEntry.strE s => acc.registerOneScope p s
            | ScopeEntry.nonString => acc)
          c)).providers k = some A := by
  induction xs with
  | nil => exact fun c h => h
  | cons x xs ih =>
      intro c h
      cases x with
      | strE s =>
          exact ih (c.registerOneScope p s)
            (lookup_registerOneScope c p s k A h)
      | nonString => exact ih c h

/-- The registration loop is a no-op on a list with no string entries. -/
theorem scopeLoop_nonString (xs : List ScopeEntry) (p : FoldProvider)
    (hxs : ∀ x ∈ xs, x = ScopeEntry.nonString) :
    ∀ c : FoldConsumer,
      (xs.foldl
        (fun acc sv =>
          match sv with
          | ScopeEntry.strE s => acc.registerOneScope p s
          | ScopeEntry.nonString => acc)
        c) = c := by
  induction xs with
  | nil => exact fun c => rfl
  | cons x xs ih =>
      intro c
      have hx : x = ScopeEntry.nonString := hxs x (by simp)
      subst hx
      exact ih (fun y hy => hxs y (by simp [hy])) c

/-- The `destroy()` trace of `deactivate` is the provider-map entries with a
`destroy` method, in iteration order, one call per entry. -/
theorem deactivate_trace (c : FoldConsumer) :
    c.deactivate.2 =
      (c.providers.filter (fun e => e.2.hasDestroy)).map
        (fun e => e.2.pid) := by
  show c.providers.foldl
      (fun acc e => if e.2.hasDestroy then acc ++ [e.2.pid] else acc) [] = _
  have aux : ∀ (ps : List (String × FoldProvider)) (acc : List Nat),
      ps.foldl (fun acc e => if e.2.hasDestroy then acc ++ [e.2.pid]
        else acc) acc =
      acc ++ (ps.filter (fun e => e.2.hasDestroy)).map (fun e => e.2.pid) := by
    intro ps
    induction ps with
    | nil => intro acc; simp
    | cons x xs ih =>
        intro acc
        rcases hx : x.2.hasDestroy with _ | _
        · simp [List.foldl, hx, ih]
        · simp [List.foldl, hx, ih]
  simpa using aux c.providers []

/-- C2 counterexample: the claim says a classification event whose key has
no registered provider leaves the object not overridden even when a provider
override was active.  In the scenario an editor overridden for scope `"k"`
is reclassified to `"m"`, which has no provider; afterwards the editor's
flag is still set and its live methods are not the snapshot defaults — the
no-provider branch calls `updateOriginalFoldMethods`, which aborts on an
overridden object instead of restoring it. -/
theorem c2_override_survives_unprovided_classification :
    lookupProvider c2Scenario.providers "m" = none ∧
    (c2Scenario.observedEditors.map fun e => e.data.usingCustomFolds) =
      [true] ∧
    (c2Scenario.observedEditors.map fun e =>
      e.data.originalFoldMethods == some e.data.live) = [false] := by
  decide

/-- C2 amended: when the classification key has no registered provider the
handler only calls `updateOriginalFoldMethods` on the object's state.  For
an object that is not overridden this is a defaults refresh: the flag stays
clear and the live methods are untouched.  For an object that is overridden
(with a snapshot present) the call aborts and the object remains overridden
with its state unchanged. -/
theorem c2_unprovided_key_capture_only (c : FoldConsumer) (eid : Nat)
    (k : String) (hk : lookupProvider c.providers k = none) :
    (c.onGrammarChanged eid k).observedEditors =
      c.observedEditors.map (fun e =>
        if e.eid == eid then
          { e with scopeName := k,
                   data := e.data.updateOriginalFoldMethods }
        else e) ∧
    (∀ d : EditorData, d.usingCustomFolds = false →
      d.updateOriginalFoldMethods.usingCustomFolds = false ∧
      d.updateOriginalFoldMethods.live = d.live) ∧
    (∀ d : EditorData, d.usingCustomFolds = true →
      d.originalFoldMethods.isSome = true →
      d.updateOriginalFoldMethods = d) := by
  refine ⟨?_, fun d hd => ⟨?_, updateOriginal_live d⟩, fun d hd hs => ?_⟩
  · unfold FoldConsumer.onGrammarChanged
    simp [hk]
  · unfold EditorData.updateOriginalFoldMethods
    split
    · exact hd
    · rfl
  · unfold EditorData.updateOriginalFoldMethods
    simp [hd, hs]

/-- C2 witness: the amended theorem at a concrete registry with an
unprovided key, both for a non-overridden editor (defaults refreshed, state
not overridden) and for an overridden editor state (capture aborts, override
stays). -/
theorem c2_unprovided_key_capture_only_witness :
    ((FoldConsumer.mk [] [ObservedEditor.mk 1 "text"
        (EditorData.create lmABC)]).onGrammarChanged 1 "m").observedEditors =
      [ObservedEditor.mk 1 "m"
        (EditorData.create lmABC).updateOriginalFoldMethods] ∧
    ((EditorData.create lmABC).applyCustomFoldsProvider
        provTen).updateOriginalFoldMethods =
      (EditorData.create lmABC).applyCustomFoldsProvider provTen := by
  constructor
  · have h := (c2_unprovided_key_capture_only
      (FoldConsumer.mk [] [ObservedEditor.mk 1 "text"
        (EditorData.create lmABC)]) 1 "m" (by decide)).1
    rw [h]
    decide
  · exact (c2_unprovided_key_capture_only (FoldConsumer.mk [] []) 1 "m"
      (by decide)).2.2 ((EditorData.create lmABC).applyCustomFoldsProvider
        provTen) (by decide) (by decide)

/-- C3 counterexample: the claim says the destruction notification restores
the original methods before teardown, so a destroyed object is never left
overridden.  In the scenario an overridden editor is destroyed; its final
state still has the override flag set and its live methods are not the
snapshot — the `onDidDestroy` handler calls `destroy()` only, not
`deactivate()`. -/
theorem c3_destroyed_editor_left_overridden :
    ((c3Scenario.onEditorDestroyed 1).2.map fun d => d.usingCustomFolds) =
      some true ∧
    ((c3Scenario.onEditorDestroyed 1).2.map fun d =>
      d.originalFoldMethods == some d.live) = some false := by
  decide

/-- C3 amended: the destruction handler calls `destroy()` (subscription
teardown) on the object's state and removes it from the map, without any
restore: the destroyed object's live methods and override flag are exactly
what they were, so an overridden object stays overridden.  Restore-then-
teardown exists only in `deactivate`, which the destruction path does not
call. -/
theorem c3_destruction_teardown_without_restore (c : FoldConsumer)
    (eid : Nat) (e : ObservedEditor)
    (he : c.observedEditors.find? (fun x => x.eid == eid) = some e) :
    (c.onEditorDestroyed eid).2 = some e.data.destroy ∧
    e.data.destroy.live = e.data.live ∧
    e.data.destroy.usingCustomFolds = e.data.usingCustomFolds ∧
    (∀ d : EditorData, d.deactivate = d.restoreOriginalFolds.destroy) := by
  refine ⟨?_, rfl, rfl, fun d => rfl⟩
  unfold FoldConsumer.onEditorDestroyed
  rw [he]

/-- C3 witness: the amended theorem at the concrete scenario of an
overridden editor being destroyed. -/
theorem c3_destruction_teardown_without_restore_witness :
    (c3Scenario.onEditorDestroyed 1).2 =
      some ((EditorData.create lmABC).applyCustomFoldsProvider
        provTen).destroy ∧
    ((EditorData.create lmABC).applyCustomFoldsProvider
        provTen).destroy.usingCustomFolds =
      ((EditorData.create lmABC).applyCustomFoldsProvider
        provTen).usingCustomFolds := by
  exact ⟨(c3_destruction_teardown_without_restore c3Scenario 1
      (ObservedEditor.mk 1 "k"
        ((EditorData.create lmABC).applyCustomFoldsProvider provTen))
      (by decide)).1,
    (c3_destruction_teardown_without_restore c3Scenario 1
      (ObservedEditor.mk 1 "k"
        ((EditorData.create lmABC).applyCustomFoldsProvider provTen))
      (by decide)).2.2.1⟩

/-- C4 counterexample: the claim says `destroy()` runs exactly once per
distinct provider instance during teardown.  Registering the single instance
`provTen` under the two keys `"k1"` and `"k2"` and deactivating yields two
`destroy()` calls on it. -/
theorem c4_destroy_called_twice :
    lookupProvider c4Scenario.providers "k1" = some provTen ∧
    lookupProvider c4Scenario.providers "k2" = some provTen ∧
    destroyCount c4Scenario.deactivate.2 provTen.pid = 2 := by
  decide

/-- C4 amended: during teardown `destroy()` is invoked once per
classification-map entry whose provider has a `destroy` method — so a
provider instance registered under n keys receives n calls, with no
deduplication by identity. -/
theorem c4_destroy_once_per_map_entry (c : FoldConsumer) (pid : Nat) :
    destroyCount c.deactivate.2 pid =
      (c.providers.filter
        (fun e => e.2.hasDestroy && e.2.pid == pid)).length := by
  rw [deactivate_trace]
  unfold destroyCount
  induction c.providers with
  | nil => rfl
  | cons x xs ih =>
      rcases hx : x.2.hasDestroy with _ | _
      · simp [List.filter, hx, ih]
      · rcases hp : (x.2.pid == pid) with _ | _
        · simp [List.filter, hx, hp, ih]
        · simp [List.filter, hx, hp, ih]

/-- C7: once a provider is stored under a classification key no later
registration rebinds the key; a later registration whose scope is exactly
that key is a complete no-op on the registry (so every object keeps the
first provider's installed behaviour); and an object classified under the
key is given the first provider's override. -/
theorem c7_first_registration_wins (c : FoldConsumer) (k : String)
    (A : FoldProvider) (pl : Payload)
    (h : lookupProvider c.providers k = some A) :
    lookupProvider (c.consumeFoldProvider pl).providers k = some A ∧
    (pl.scope = ScopeField.strv k → c.consumeFoldProvider pl = c) ∧
    (∀ eid : Nat,
      (c.onGrammarChanged eid k).observedEditors =
        c.observedEditors.map (fun e =>
          if e.eid == eid then
            { e with scopeName := k,
                     data := e.data.applyCustomFoldsProvider A }
          else e)) := by
  refine ⟨?_, ?_, ?_⟩
  · unfold FoldConsumer.consumeFoldProvider
    split
    · exact h
    · split
      · exact lookup_registerOneScope c pl.provider _ k A h
      · exact lookup_scopeLoop _ pl.provider k A c h
      · exact h
  · intro hs
    unfold FoldConsumer.consumeFoldProvider
    split
    · rfl
    · rw [hs]
      unfold FoldConsumer.registerOneScope
      simp [h]
  · intro eid
    unfold FoldConsumer.onGrammarChanged
    simp [h]

/-- C7 witness: `provTen` registered first under `"k"`; a second
registration of `provEleven` under `"k"` leaves the binding and the whole
registry unchanged. -/
theorem c7_first_registration_wins_witness :
    lookupProvider
      ((c7Scenario.consumeFoldProvider
        (Payload.mk true true true (ScopeField.strv "k")
          provEleven))).providers "k" = some provTen ∧
    c7Scenario.consumeFoldProvider
      (Payload.mk true true true (ScopeField.strv "k") provEleven) =
      c7Scenario := by
  exact ⟨(c7_first_registration_wins c7Scenario "k" provTen
      (Payload.mk true true true (ScopeField.strv "k") provEleven)
      (by decide)).1,
    (c7_first_registration_wins c7Scenario "k" provTen
      (Payload.mk true true true (ScopeField.strv "k") provEleven)
      (by decide)).2.1 rfl⟩

/-- C8: a registration payload missing one of the three required operations,
or whose scope field is falsy, is a truthy non-string non-array value, or is
an array with no string entry, leaves the registry completely unchanged (no
provider-map entry, no editor state touched); the operation is total, so
nothing is raised. -/
theorem c8_malformed_payload_rejected (c : FoldConsumer) (pl : Payload)
    (h : pl.hasIsFoldableAtRow = false ∨
         pl.hasGetFoldableRangeContainingPoint = false ∨
         pl.hasGetFoldableRangesAtIndentLevel = false ∨
         pl.scope.truthyScope = false ∨
         pl.scope = ScopeField.otherv ∨
         (∃ xs, pl.scope = ScopeField.arrv xs ∧
            ∀ x ∈ xs, x = ScopeEntry.nonString)) :
    c.consumeFoldProvider pl = c := by
  rcases h with h | h | h | h | h | ⟨xs, hxs, hall⟩
  · unfold FoldConsumer.consumeFoldProvider
    simp [h]
  · unfold FoldConsumer.consumeFoldProvider
    simp [h]
  · unfold FoldConsumer.consumeFoldProvider
    simp [h]
  · unfold FoldConsumer.consumeFoldProvider
    simp [h]
  · unfold FoldConsumer.consumeFoldProvider
    split
    · rfl
    · rw [h]
  · unfold FoldConsumer.consumeFoldProvider
    split
    · rfl
    · rw [hxs]
      exact scopeLoop_nonString xs pl.provider hall c

/-- C8 witness: a payload missing `isFoldableAtRow`, and one whose scope is
an empty array, both leave an empty registry empty. -/
theorem c8_malformed_payload_rejected_witness :
    (FoldConsumer.mk [] []).consumeFoldProvider
      (Payload.mk false true true (ScopeField.strv "k") provTen) =
      FoldConsumer.mk [] [] ∧
    (FoldConsumer.mk [] []).consumeFoldProvider
      (Payload.mk true true true (ScopeField.arrv []) provTen) =
      FoldConsumer.mk [] [] := by
  exact ⟨c8_malformed_payload_rejected (FoldConsumer.mk [] [])
      (Payload.mk false true true (ScopeField.strv "k") provTen)
      (Or.inl rfl),
    c8_malformed_payload_rejected (FoldConsumer.mk [] [])
      (Payload.mk true true true (ScopeField.arrv []) provTen)
      (Or.inr (Or.inr (Or.inr (Or.inr (Or.inr
        ⟨[], rfl, by simp⟩)))))⟩
